import Mathlib

/-!
Verification of the RBAC core of the CMS backend.

This file shallowly embeds the authorization middleware
(`src/middleware/rbac.js`) and the RBAC controller
(`src/unnamed/part_013`, i.e. `rbacController.js`) of the repository.

Modelling conventions:
* The MySQL database is a record of lists of rows (`DB`); each SQL query of
  the source is translated into a decidable predicate or fold over those
  lists, keeping exactly the `WHERE`/`JOIN` conditions that appear in the
  SQL text.
* `NOW()` is a `Nat` parameter `now`; a `DATETIME` column is an
  `Option Nat` (`none` = SQL `NULL`).  `expires_at > NOW()` becomes
  `now < t`.
* An Express handler is a pure function `DB → Request → DB × Response`
  (or `GateResult` for middleware).  A thrown JS error is an
  `Except JsErr` value; the controllers' `catch` blocks roll the
  transaction back, so on error the original `DB` is returned together
  with the response produced by `handleError`.
* `req.user` (set by the authentication middleware) is `Option ReqUser`;
  the JS truthiness test `!req.user || !req.user.id` is modelled by the
  `Option` match plus an explicit `id == 0` test, since `0` is falsy.
-/

namespace CMS

/-- Outcome of an authorization middleware gate (`src/middleware/rbac.js`).
`next()` is `allow`; each early `res.status(...).json({code: ...})` return
is the constructor named after its `code` field, keeping the payload data
(the required / missing module and permission keys) where the source sends
them. -/
inductive GateResult where
  | allow : GateResult
  | unauthorized : GateResult
  | companyFrozen : GateResult
  | userInactive : GateResult
  | permissionDenied (moduleKey permissionKey : String) : GateResult
  | permissionDeniedAny : GateResult
  | missingPermission (moduleKey permissionKey : String) : GateResult
  | ownerRequired : GateResult
  deriving DecidableEq, Repr

/-- A row of the `companies` table (the columns the RBAC core reads). -/
structure CompanyRow where
  id : Nat
  owner_id : Nat
  is_frozen : Bool
  deriving DecidableEq, Repr

/-- A row of the `users` table (the columns the RBAC core reads). -/
structure UserRow where
  id : Nat
  company_id : Nat
  assigned_role_id : Option Nat
  is_active : Bool
  deriving DecidableEq, Repr

/-- A row of the `company_roles` table. -/
structure RoleRow where
  id : Nat
  company_id : Nat
  role_key : String
  role_name : String
  description : Option String
  parent_role_id : Option Nat
  hierarchy_level : Nat
  is_system_role : Bool
  is_active : Bool
  created_by : Nat
  deriving DecidableEq, Repr

/-- A row of the `role_permissions` table. -/
structure RolePermissionRow where
  company_role_id : Nat
  system_permission_id : Nat
  can_grant : Bool
  granted_by : Nat
  deriving DecidableEq, Repr

/-- A row of the `system_permissions` table. -/
structure SystemPermissionRow where
  id : Nat
  module_id : Nat
  permission_key : String
  is_active : Bool
  deriving DecidableEq, Repr

/-- A row of the `system_modules` table. -/
structure SystemModuleRow where
  id : Nat
  module_key : String
  is_active : Bool
  deriving DecidableEq, Repr

/-- A row of the `user_permission_overrides` table. -/
structure OverrideRow where
  user_id : Nat
  system_permission_id : Nat
  is_granted : Bool
  expires_at : Option Nat
  override_reason : Option String
  overridden_by : Nat
  deriving DecidableEq, Repr

/-- A row of the `permission_audit_log` table.  `old_value` / `new_value`
are ad-hoc serialized JSON in the source; we record the one field a claim
inspects, the `permission_count` number serialized by `createRole`
(`none` for rows whose `new_value` has no such field). -/
structure AuditRow where
  company_id : Nat
  action_type : String
  target_role_id : Option Nat
  target_user_id : Option Nat
  performed_by : Nat
  permission_count : Option Nat
  deriving DecidableEq, Repr

/-- The database state consumed by the RBAC core, one list per table, plus
the auto-increment counter used for `company_roles` inserts
(`result.insertId` in the source). -/
structure DB where
  companies : List CompanyRow
  users : List UserRow
  company_roles : List RoleRow
  role_permissions : List RolePermissionRow
  system_permissions : List SystemPermissionRow
  system_modules : List SystemModuleRow
  user_permission_overrides : List OverrideRow
  permission_audit_log : List AuditRow
  nextRoleId : Nat
  deriving DecidableEq, Repr

/-- `req.user` as attached by `authenticateToken`
(`src/middleware/auth.js`): the subject id, the `userType` string
(`"owner"` or `"user"`) and, for company users, the `company_id` column. -/
structure ReqUser where
  id : Nat
  userType : String
  company_id : Nat
  deriving DecidableEq, Repr

/-- `SELECT is_frozen FROM companies WHERE id = ?` followed by the JS test
`company.length > 0 && company[0].is_frozen`
(`src/middleware/rbac.js:34-39`). -/
def companyFrozenQuery (db : DB) (companyId : Nat) : Bool :=
  match db.companies.find? (fun c => c.id == companyId) with
  | some c => c.is_frozen
  | none => false

/-- `SELECT is_active FROM users WHERE id = ?` followed by the JS test
`user.length === 0 || !user[0].is_active` (`src/middleware/rbac.js:48-53`);
`true` means the user row exists and is active. -/
def userActiveQuery (db : DB) (userId : Nat) : Bool :=
  match db.users.find? (fun u => u.id == userId) with
  | some u => u.is_active
  | none => false

/-- The role-permission join of `requirePermission`
(`src/middleware/rbac.js:62-77`): counts rows joining users,
`company_roles`, `role_permissions`, `system_permissions` and
`system_modules` on the given keys with `u.is_active = 1`,
`cr.is_active = 1`, `sm.is_active = 1` and `sp.is_active = 1`. -/
def rolePermissionQueryFull (db : DB) (userId : Nat)
    (moduleKey permissionKey : String) : Bool :=
  db.users.any fun u =>
    u.id == userId && u.is_active &&
    (db.company_roles.any fun cr =>
      u.assigned_role_id == some cr.id && cr.is_active &&
      (db.role_permissions.any fun rp =>
        rp.company_role_id == cr.id &&
        (db.system_permissions.any fun sp =>
          sp.id == rp.system_permission_id &&
          sp.permission_key == permissionKey && sp.is_active &&
          (db.system_modules.any fun sm =>
            sm.id == sp.module_id && sm.module_key == moduleKey &&
            sm.is_active))))

/-- The role-permission join of `requireAnyPermission` and
`requireAllPermissions` (`src/middleware/rbac.js:145-155,217-227`):
identical joins but the `WHERE` clause only has `u.is_active = 1` and
`cr.is_active = 1` — it does NOT require `sm.is_active` or
`sp.is_active`. -/
def rolePermissionQueryNoActive (db : DB) (userId : Nat)
    (moduleKey permissionKey : String) : Bool :=
  db.users.any fun u =>
    u.id == userId && u.is_active &&
    (db.company_roles.any fun cr =>
      u.assigned_role_id == some cr.id && cr.is_active &&
      (db.role_permissions.any fun rp =>
        rp.company_role_id == cr.id &&
        (db.system_permissions.any fun sp =>
          sp.id == rp.system_permission_id &&
          sp.permission_key == permissionKey &&
          (db.system_modules.any fun sm =>
            sm.id == sp.module_id && sm.module_key == moduleKey))))

/-- The override query used by every gate
(`src/middleware/rbac.js:84-95,162-170,232-240`): an
`user_permission_overrides` row joined to the permission and module keys
with `is_granted = 1 AND (expires_at IS NULL OR expires_at > NOW())`.
No `is_active` condition appears on the module or permission. -/
def overrideQuery (db : DB) (now : Nat) (userId : Nat)
    (moduleKey permissionKey : String) : Bool :=
  db.user_permission_overrides.any fun o =>
    o.user_id == userId && o.is_granted &&
    (match o.expires_at with
     | none => true
     | some t => now < t) &&
    (db.system_permissions.any fun sp =>
      sp.id == o.system_permission_id &&
      sp.permission_key == permissionKey &&
      (db.system_modules.any fun sm =>
        sm.id == sp.module_id && sm.module_key == moduleKey))

/-- `requirePermission(moduleKey, permissionKey)`
(`src/middleware/rbac.js:7-120`). -/
def requirePermission (db : DB) (now : Nat) (reqUser : Option ReqUser)
    (moduleKey permissionKey : String) : GateResult :=
  match reqUser with
  | none => .unauthorized
  | some u =>
    if u.id == 0 then .unauthorized
    else if u.userType == "owner" then .allow
    else if companyFrozenQuery db u.company_id then .companyFrozen
    else if !userActiveQuery db u.id then .userInactive
    else if rolePermissionQueryFull db u.id moduleKey permissionKey then
      .allow
    else if overrideQuery db now u.id moduleKey permissionKey then .allow
    else .permissionDenied moduleKey permissionKey

/-- The `for (const [moduleKey, permissionKey] of permissions)` loop of
`requireAnyPermission` (`src/middleware/rbac.js:143-182`): first pair whose
role query or override query hits calls `next()`; falling off the loop
denies with no pair in the payload. -/
def anyPermissionLoop (db : DB) (now userId : Nat) :
    List (String × String) → GateResult
  | [] => .permissionDeniedAny
  | (moduleKey, permissionKey) :: rest =>
    if rolePermissionQueryNoActive db userId moduleKey permissionKey then
      .allow
    else if overrideQuery db now userId moduleKey permissionKey then .allow
    else anyPermissionLoop db now userId rest

/-- `requireAnyPermission(...permissions)`
(`src/middleware/rbac.js:125-192`).  Note: after the authentication and
owner tests it goes straight to the permission loop — there is no
company-frozen or user-active check in this middleware. -/
def requireAnyPermission (db : DB) (now : Nat) (reqUser : Option ReqUser)
    (pairs : List (String × String)) : GateResult :=
  match reqUser with
  | none => .unauthorized
  | some u =>
    if u.id == 0 then .unauthorized
    else if u.userType == "owner" then .allow
    else anyPermissionLoop db now u.id pairs

/-- The loop of `requireAllPermissions`
(`src/middleware/rbac.js:215-258`): the first pair granted by neither the
role query nor the override query denies naming that pair; an exhausted
loop calls `next()`. -/
def allPermissionsLoop (db : DB) (now userId : Nat) :
    List (String × String) → GateResult
  | [] => .allow
  | (moduleKey, permissionKey) :: rest =>
    let hasPermission :=
      rolePermissionQueryNoActive db userId moduleKey permissionKey ||
      overrideQuery db now userId moduleKey permissionKey
    if !hasPermission then .missingPermission moduleKey permissionKey
    else allPermissionsLoop db now userId rest

/-- `requireAllPermissions(...permissions)`
(`src/middleware/rbac.js:197-268`).  As with `requireAnyPermission`, no
company-frozen or user-active precondition is checked. -/
def requireAllPermissions (db : DB) (now : Nat) (reqUser : Option ReqUser)
    (pairs : List (String × String)) : GateResult :=
  match reqUser with
  | none => .unauthorized
  | some u =>
    if u.id == 0 then .unauthorized
    else if u.userType == "owner" then .allow
    else allPermissionsLoop db now u.id pairs

/-- `requireOwner` (`src/middleware/rbac.js:273-314`): owner `userType`
passes directly; otherwise the legacy database check joins `companies`
and `users` on `c.owner_id = u.id` with `u.id = ?` and `c.id = ?`. -/
def requireOwner (db : DB) (reqUser : Option ReqUser) : GateResult :=
  match reqUser with
  | none => .unauthorized
  | some u =>
    if u.id == 0 then .unauthorized
    else if u.userType == "owner" then .allow
    else if db.companies.any (fun c =>
        c.id == u.company_id &&
        (db.users.any fun usr => c.owner_id == usr.id && usr.id == u.id))
    then .allow
    else .ownerRequired

/-- JS `String.prototype.trim()`: strip leading and trailing whitespace.
Defined over the character list so that it reduces in the kernel
(`String.trim` itself is defined by well-founded recursion over byte
positions and does not). -/
def jsTrim (s : String) : String :=
  ⟨((s.data.dropWhile Char.isWhitespace).reverse.dropWhile
      Char.isWhitespace).reverse⟩

/-- JS `String.prototype.toLowerCase()` (ASCII), over the character
list for the same kernel-reduction reason as `jsTrim`. -/
def jsToLower (s : String) : String :=
  ⟨s.data.map Char.toLower⟩

/-- A thrown JS error inside a controller: either an explicit
`new ErrorHandler(message, statusCode)` or the runtime `ReferenceError`
raised by reading an undeclared identifier. -/
inductive JsErr where
  | handler (status : Nat) (message : String)
  | referenceError (name : String)
  deriving DecidableEq, Repr

/-- A controller response, keeping the payload fields the claims inspect.
`ok` stands for a 200 response whose payload no claim reads. -/
inductive Resp where
  | ok : Resp
  | okAssign (assigned skipped total : Nat) : Resp
  | okRevoke (revoked : Nat) : Resp
  | createdRole (roleId permissionCount : Nat) : Resp
  | createdClone (roleId : Nat) : Resp
  | err (status : Nat) (message : String) : Resp
  deriving DecidableEq, Repr

/-- `handleError` (`src/utils/responseHandler.js`): an `ErrorHandler` keeps
its status and message; any other error (no `statusCode` property, e.g. a
`ReferenceError`) defaults to status 500 with the error's own message
(`ReferenceError: x is not defined` has message `x is not defined`). -/
def handleError : JsErr → Resp
  | .handler s m => .err s m
  | .referenceError n => .err 500 (n ++ " is not defined")

/-- `RBACController.isOwner(req)` (part_013:12-14):
`req.user && req.user.userType === "owner"`. -/
def isOwnerReq : Option ReqUser → Bool
  | some u => u.userType == "owner"
  | none => false

/-- `RBACController.checkUserPermission` (part_013:908-930).  Its first
statement is `if (userType === "owner") return true;` — but no binding
named `userType` exists anywhere in the module or the function, so in
Node evaluating it always throws `ReferenceError: userType is not
defined` before the SQL query below it can run.  The role-permission
query at part_013:917-929 is therefore unreachable. -/
def checkUserPermission (_db : DB) (_userId : Nat)
    (_moduleKey _permissionKey : String) : Except JsErr Bool :=
  Except.error (.referenceError "userType")

/-- `RBACController.checkUserCanGrantPermission` (part_013:935-969).  Like
`checkUserPermission`, its first statement reads the undeclared identifier
`userType` and always throws `ReferenceError`; the owner-of-company and
`can_grant` queries below it are unreachable. -/
def checkUserCanGrantPermission (_db : DB) (_userId _permissionId
    _companyId : Nat) : Except JsErr Bool :=
  Except.error (.referenceError "userType")

/-- Request shape for `createRole` (part_013:151-285): the acting
principal, `req.query.id`, `req.query.company_id`, and the body fields. -/
structure CreateRoleReq where
  user : Option ReqUser
  queryId : Nat
  queryCompanyId : Nat
  role_key : Option String
  role_name : Option String
  description : Option String
  parent_role_id : Option Nat
  hierarchy_level : Option Nat
  permission_ids : Option (List Nat)
  is_system_role : Option Bool
  deriving DecidableEq, Repr

/-- The permission-assignment loop of `createRole` (part_013:227-245):
for each requested permission id, `canGrant` is the owner test
short-circuit-OR `checkUserCanGrantPermission`; granted ids are inserted
with `can_grant = 0`, ungranted ones silently skipped.  Returns the rows
inserted. -/
def createRoleGrantLoop (db : DB) (req : CreateRoleReq) (newRoleId : Nat) :
    List Nat → Except JsErr (List RolePermissionRow)
  | [] => pure []
  | pid :: rest => do
    let canGrant ←
      if isOwnerReq req.user then pure true
      else checkUserCanGrantPermission db req.queryId pid req.queryCompanyId
    let restRows ← createRoleGrantLoop db req newRoleId rest
    if canGrant then
      pure ({ company_role_id := newRoleId, system_permission_id := pid,
              can_grant := false, granted_by := req.queryId } :: restRows)
    else
      pure restRows

/-- `RBACController.createRole` body (part_013:151-285), run inside the
transaction; a thrown error propagates to the catch block. -/
def createRoleE (db : DB) (req : CreateRoleReq) :
    Except JsErr (DB × Resp) := do
  let role_key := req.role_key.getD ""
  let role_name := req.role_name.getD ""
  if role_key == "" || role_name == "" then
    throw (.handler 400 "Role key and name are required")
  if db.company_roles.any (fun r =>
      r.role_key == jsTrim role_key && r.company_id == req.queryCompanyId) then
    throw (.handler 409 "Role key already exists")
  if !isOwnerReq req.user then
    let hasPermission ←
      checkUserPermission db req.queryId "roles" "manage_roles"
    if !hasPermission then
      throw (.handler 403 "You do not have permission to create roles")
  let newRoleId := db.nextRoleId
  let newRole : RoleRow := {
    id := newRoleId
    company_id := req.queryCompanyId
    role_key := jsToLower (jsTrim role_key)
    role_name := jsTrim role_name
    description := match req.description with
      | some d => if jsTrim d == "" then none else some (jsTrim d)
      | none => none
    parent_role_id := match req.parent_role_id with
      | some p => if p == 0 then none else some p
      | none => none
    hierarchy_level := req.hierarchy_level.getD 0
    is_system_role := req.is_system_role.getD false
    is_active := true
    created_by := req.queryId }
  let ids := req.permission_ids.getD []
  let newBindings ← createRoleGrantLoop db req newRoleId ids
  -- audit `new_value` serializes `permission_count: permission_ids?.length
  -- || 0` — the REQUESTED count, not the number of rows inserted
  let audit : AuditRow := {
    company_id := req.queryCompanyId
    action_type := "ROLE_CREATED"
    target_role_id := some newRoleId
    target_user_id := none
    performed_by := req.queryId
    permission_count := some (match req.permission_ids with
      | some l => l.length
      | none => 0) }
  let db' : DB := { db with
    company_roles := db.company_roles ++ [newRole]
    role_permissions := db.role_permissions ++ newBindings
    permission_audit_log := db.permission_audit_log ++ [audit]
    nextRoleId := db.nextRoleId + 1 }
  -- the 201 payload re-fetches the role with its live permission_count
  pure (db', .createdRole newRoleId
    (db'.role_permissions.countP
      (fun b => b.company_role_id == newRoleId)))

/-- `RBACController.createRole` with its catch block: on any thrown error
the transaction is rolled back (original `db`) and `handleError` builds
the response. -/
def createRole (db : DB) (req : CreateRoleReq) : DB × Resp :=
  match createRoleE db req with
  | .ok r => r
  | .error e => (db, handleError e)

/-- One field of an `updateRole` request body, named after the
`company_roles` columns a client can send. -/
inductive RolePatchField where
  | role_name (v : String)
  | description (v : String)
  | parent_role_id (v : Nat)
  | hierarchy_level (v : Nat)
  | is_active (v : Bool)
  | role_key (v : String)
  | company_id (v : Nat)
  | is_system_role (v : Bool)
  | id (v : Nat)
  | created_by (v : Nat)
  deriving DecidableEq, Repr

/-- The immutable fields `updateRole` deletes from the patch
(part_013:336-341): `id`, `company_id`, `role_key`, `created_by`,
`created_at`, `is_system_role`. -/
def isProtectedRoleField : RolePatchField → Bool
  | .role_key _ => true
  | .company_id _ => true
  | .is_system_role _ => true
  | .id _ => true
  | .created_by _ => true
  | _ => false

/-- Applying one surviving patch field to a role row; string values are
trimmed by `Helpers.sanitizeInput`. -/
def applyRolePatchField (r : RoleRow) : RolePatchField → RoleRow
  | .role_name v => { r with role_name := jsTrim v }
  | .description v => { r with description := some (jsTrim v) }
  | .parent_role_id v => { r with parent_role_id := some v }
  | .hierarchy_level v => { r with hierarchy_level := v }
  | .is_active v => { r with is_active := v }
  | _ => r

/-- Request shape for `updateRole` (part_013:290-391). -/
structure UpdateRoleReq where
  user : Option ReqUser
  queryId : Nat
  queryCompanyId : Nat
  paramsId : Nat
  patch : List RolePatchField
  deriving DecidableEq, Repr

/-- `RBACController.updateRole` body (part_013:290-391).  Order of the
guards as in the source: role lookup (404), system-role test (403),
management-permission test, empty-patch test (400), then the UPDATE and
the `ROLE_UPDATED` audit insert. -/
def updateRoleE (db : DB) (req : UpdateRoleReq) :
    Except JsErr (DB × Resp) := do
  if req.paramsId == 0 then
    throw (.handler 400 "Invalid Role ID. Must be a positive integer.")
  let existingRole ← match db.company_roles.find? (fun r =>
      r.id == req.paramsId && r.company_id == req.queryCompanyId) with
    | none => throw (.handler 404 "Role not found")
    | some r => pure r
  if existingRole.is_system_role then
    throw (.handler 403 "Cannot modify system roles")
  if !isOwnerReq req.user then
    let hasPermission ←
      checkUserPermission db req.queryId "roles" "manage_roles"
    if !hasPermission then
      throw (.handler 403 "You do not have permission to update roles")
  let fields := req.patch.filter (fun f => !isProtectedRoleField f)
  -- `updateData` always carries `updated_at`, so the
  -- `Object.keys(updateData).length <= 1` test fires iff no client
  -- field survived the deletions
  if fields.isEmpty then
    throw (.handler 400 "No valid fields to update")
  let audit : AuditRow := {
    company_id := req.queryCompanyId
    action_type := "ROLE_UPDATED"
    target_role_id := some req.paramsId
    target_user_id := none
    performed_by := req.queryId
    permission_count := none }
  let db' : DB := { db with
    company_roles := db.company_roles.map (fun r =>
      if r.id == req.paramsId && r.company_id == req.queryCompanyId then
        fields.foldl applyRolePatchField r
      else r)
    permission_audit_log := db.permission_audit_log ++ [audit] }
  pure (db', .ok)

/-- `RBACController.updateRole` with rollback on error. -/
def updateRole (db : DB) (req : UpdateRoleReq) : DB × Resp :=
  match updateRoleE db req with
  | .ok r => r
  | .error e => (db, handleError e)

/-- Request shape for `deleteRole` (part_013:396-477). -/
structure DeleteRoleReq where
  user : Option ReqUser
  queryId : Nat
  queryCompanyId : Nat
  paramsId : Nat
  deriving DecidableEq, Repr

/-- `RBACController.deleteRole` body (part_013:396-477).  Guard order as
in the source: role lookup (404), system-role test (403), assigned-users
count (400 with the count in the message — note the count query has no
company predicate), management-permission test, then the two DELETEs and
the `ROLE_DELETED` audit insert. -/
def deleteRoleE (db : DB) (req : DeleteRoleReq) :
    Except JsErr (DB × Resp) := do
  if req.paramsId == 0 then
    throw (.handler 400 "Invalid Role ID. Must be a positive integer.")
  let role ← match db.company_roles.find? (fun r =>
      r.id == req.paramsId && r.company_id == req.queryCompanyId) with
    | none => throw (.handler 404 "Role not found")
    | some r => pure r
  if role.is_system_role then
    throw (.handler 403 "Cannot delete system roles")
  let usersWithRole := db.users.countP
    (fun u => u.assigned_role_id == some req.paramsId)
  if usersWithRole > 0 then
    throw (.handler 400 ("Cannot delete role. " ++ toString usersWithRole
      ++ " user(s) are assigned to this role. Please reassign them first."))
  if !isOwnerReq req.user then
    let hasPermission ←
      checkUserPermission db req.queryId "roles" "manage_roles"
    if !hasPermission then
      throw (.handler 403 "You do not have permission to delete roles")
  let audit : AuditRow := {
    company_id := req.queryCompanyId
    action_type := "ROLE_DELETED"
    target_role_id := some req.paramsId
    target_user_id := none
    performed_by := req.queryId
    permission_count := none }
  let db' : DB := { db with
    role_permissions := db.role_permissions.filter
      (fun b => !(b.company_role_id == req.paramsId))
    company_roles := db.company_roles.filter (fun r =>
      !(r.id == req.paramsId && r.company_id == req.queryCompanyId))
    permission_audit_log := db.permission_audit_log ++ [audit] }
  pure (db', .ok)

/-- `RBACController.deleteRole` with rollback on error. -/
def deleteRole (db : DB) (req : DeleteRoleReq) : DB × Resp :=
  match deleteRoleE db req with
  | .ok r => r
  | .error e => (db, handleError e)

/-- Request shape for `assignPermissionsToRole` (part_013:547-658). -/
structure AssignPermsReq where
  user : Option ReqUser
  queryId : Nat
  queryCompanyId : Nat
  paramsId : Nat
  permission_ids : Option (List Nat)
  can_grant : Option Bool
  deriving DecidableEq, Repr

/-- The `for (const permissionId of permission_ids)` loop of
`assignPermissionsToRole` (part_013:593-623).  The transaction sees its
own inserts, so the duplicate SELECT runs against the threaded binding
list.  An ungrantable id increments `skipped`; a fresh id is inserted and
increments `assigned`; an id whose binding already exists increments
NEITHER counter. -/
def assignPermsLoop (db : DB) (req : AssignPermsReq) :
    List Nat → List RolePermissionRow → Nat → Nat →
    Except JsErr (List RolePermissionRow × Nat × Nat)
  | [], bindings, assigned, skipped => pure (bindings, assigned, skipped)
  | pid :: rest, bindings, assigned, skipped => do
    let canGrantPermission ←
      if isOwnerReq req.user then pure true
      else checkUserCanGrantPermission db req.queryId pid req.queryCompanyId
    if !canGrantPermission then
      assignPermsLoop db req rest bindings assigned (skipped + 1)
    else if bindings.any (fun b =>
        b.company_role_id == req.paramsId &&
        b.system_permission_id == pid) then
      assignPermsLoop db req rest bindings assigned skipped
    else
      assignPermsLoop db req rest
        (bindings ++ [{ company_role_id := req.paramsId,
                        system_permission_id := pid,
                        can_grant := req.can_grant.getD false,
                        granted_by := req.queryId }])
        (assigned + 1) skipped

/-- `RBACController.assignPermissionsToRole` body (part_013:547-658). -/
def assignPermissionsToRoleE (db : DB) (req : AssignPermsReq) :
    Except JsErr (DB × Resp) := do
  if req.paramsId == 0 then
    throw (.handler 400 "Invalid Role ID. Must be a positive integer.")
  let ids := req.permission_ids.getD []
  if ids.isEmpty then
    throw (.handler 400 "Permission IDs are required")
  if (db.company_roles.find? (fun r =>
      r.id == req.paramsId && r.company_id == req.queryCompanyId)).isNone
  then
    throw (.handler 404 "Role not found")
  if !isOwnerReq req.user then
    let hasPermission ←
      checkUserPermission db req.queryId "roles" "assign_permissions"
    if !hasPermission then
      throw (.handler 403 "You do not have permission to assign permissions")
  let r ← assignPermsLoop db req ids db.role_permissions 0 0
  let audit : AuditRow := {
    company_id := req.queryCompanyId
    action_type := "PERMISSION_GRANTED"
    target_role_id := some req.paramsId
    target_user_id := none
    performed_by := req.queryId
    permission_count := none }
  let db' : DB := { db with
    role_permissions := r.1
    permission_audit_log := db.permission_audit_log ++ [audit] }
  pure (db', .okAssign r.2.1 r.2.2 ids.length)

/-- `RBACController.assignPermissionsToRole` with rollback on error. -/
def assignPermissionsToRole (db : DB) (req : AssignPermsReq) : DB × Resp :=
  match assignPermissionsToRoleE db req with
  | .ok r => r
  | .error e => (db, handleError e)

/-- Request shape for `grantPermissionOverride` (part_013:1114-1212);
`paramsId` is the target user id. -/
structure GrantOverrideReq where
  user : Option ReqUser
  queryId : Nat
  queryCompanyId : Nat
  paramsId : Nat
  permission_id : Option Nat
  expires_at : Option Nat
  reason : Option String
  deriving DecidableEq, Repr

/-- Update the first list element satisfying `p` (the source updates the
single row `WHERE id = existing[0].id`). -/
def updateFirstOverride (p : OverrideRow → Bool)
    (f : OverrideRow → OverrideRow) : List OverrideRow → List OverrideRow
  | [] => []
  | o :: rest =>
    if p o then f o :: rest else o :: updateFirstOverride p f rest

/-- `RBACController.grantPermissionOverride` body (part_013:1114-1212).
The target user lookup is scoped by the caller's `company_id`
(`WHERE id = ? AND company_id = ?`); the permission lookup is global.
`expires_at || null` maps the falsy `0` to `NULL`. -/
def grantPermissionOverrideE (db : DB) (req : GrantOverrideReq) :
    Except JsErr (DB × Resp) := do
  if req.paramsId == 0 then
    throw (.handler 400 "Invalid User ID. Must be a positive integer.")
  let pid := req.permission_id.getD 0
  if pid == 0 then
    throw (.handler 400 "Permission ID is required")
  if (db.users.find? (fun u =>
      u.id == req.paramsId && u.company_id == req.queryCompanyId)).isNone
  then
    throw (.handler 404 "User not found")
  if (db.system_permissions.find? (fun sp => sp.id == pid)).isNone then
    throw (.handler 404 "Permission not found")
  if !isOwnerReq req.user then
    let canGrant ←
      checkUserCanGrantPermission db req.queryId pid req.queryCompanyId
    if !canGrant then
      throw (.handler 403 "You do not have permission to grant this override")
  let expiry := match req.expires_at with
    | some t => if t == 0 then none else some t
    | none => none
  let reason := match req.reason with
    | some s => if jsTrim s == "" then none else some (jsTrim s)
    | none => none
  let isMatch := fun (o : OverrideRow) =>
    o.user_id == req.paramsId && o.system_permission_id == pid
  let overrides :=
    if db.user_permission_overrides.any isMatch then
      updateFirstOverride isMatch
        (fun o => { o with
          is_granted := true
          expires_at := expiry
          override_reason := reason
          overridden_by := req.queryId })
        db.user_permission_overrides
    else
      db.user_permission_overrides ++
        [{ user_id := req.paramsId, system_permission_id := pid,
           is_granted := true, expires_at := expiry,
           override_reason := reason, overridden_by := req.queryId }]
  pure ({ db with user_permission_overrides := overrides }, .ok)

/-- `RBACController.grantPermissionOverride` with rollback on error. -/
def grantPermissionOverride (db : DB) (req : GrantOverrideReq) :
    DB × Resp :=
  match grantPermissionOverrideE db req with
  | .ok r => r
  | .error e => (db, handleError e)

/-- Request shape for `revokePermissionOverride` (part_013:1217-1251);
`paramsId` is the target user id. -/
structure RevokeOverrideReq where
  user : Option ReqUser
  queryId : Nat
  queryCompanyId : Nat
  paramsId : Nat
  permission_id : Option Nat
  deriving DecidableEq, Repr

/-- `RBACController.revokePermissionOverride` body (part_013:1217-1251).
After the two input validations it goes STRAIGHT to
`DELETE FROM user_permission_overrides WHERE user_id = ? AND
system_permission_id = ?` — no permission check, no lookup of the target
user, and no `company_id` predicate anywhere. -/
def revokePermissionOverrideE (db : DB) (req : RevokeOverrideReq) :
    Except JsErr (DB × Resp) := do
  if req.paramsId == 0 then
    throw (.handler 400 "Invalid User ID. Must be a positive integer.")
  let pid := req.permission_id.getD 0
  if pid == 0 then
    throw (.handler 400 "Permission ID is required")
  let isMatch := fun (o : OverrideRow) =>
    o.user_id == req.paramsId && o.system_permission_id == pid
  let affected := db.user_permission_overrides.countP isMatch
  let db' : DB := { db with
    user_permission_overrides :=
      db.user_permission_overrides.filter (fun o => !isMatch o) }
  pure (db', .okRevoke affected)

/-- `RBACController.revokePermissionOverride` with rollback on error. -/
def revokePermissionOverride (db : DB) (req : RevokeOverrideReq) :
    DB × Resp :=
  match revokePermissionOverrideE db req with
  | .ok r => r
  | .error e => (db, handleError e)

/-- Request shape for `cloneRole` (part_013:1443-1520); `paramsId` is the
source role id. -/
structure CloneRoleReq where
  user : Option ReqUser
  queryId : Nat
  queryCompanyId : Nat
  paramsId : Nat
  new_role_key : Option String
  new_role_name : Option String
  include_can_grant : Option Bool
  deriving DecidableEq, Repr

/-- `RBACController.cloneRole` body (part_013:1443-1520).  Between the
input validations and the inserts there is NO `isOwner` test and NO
`checkUserPermission` call, and no `permission_audit_log` insert appears
anywhere in the function.  `newRoleData` sets no `is_system_role` and no
`parent_role_id`, so those columns take their defaults (0 / NULL). -/
def cloneRoleE (db : DB) (req : CloneRoleReq) : Except JsErr (DB × Resp) := do
  if req.paramsId == 0 then
    throw (.handler 400 "Invalid Source Role ID. Must be a positive integer.")
  let new_role_key := req.new_role_key.getD ""
  let new_role_name := req.new_role_name.getD ""
  if new_role_key == "" || new_role_name == "" then
    throw (.handler 400 "New role key and name are required")
  let sourceRole ← match db.company_roles.find? (fun r =>
      r.id == req.paramsId && r.company_id == req.queryCompanyId) with
    | none => throw (.handler 404 "Source role not found")
    | some r => pure r
  if db.company_roles.any (fun r =>
      r.role_key == jsTrim new_role_key &&
      r.company_id == req.queryCompanyId) then
    throw (.handler 409 "Role key already exists")
  let newRoleId := db.nextRoleId
  let newRole : RoleRow := {
    id := newRoleId
    company_id := req.queryCompanyId
    role_key := jsToLower (jsTrim new_role_key)
    role_name := jsTrim new_role_name
    description := some ("Cloned from " ++ sourceRole.role_name)
    parent_role_id := none
    hierarchy_level := sourceRole.hierarchy_level
    is_system_role := false
    is_active := true
    created_by := req.queryId }
  let copied := (db.role_permissions.filter
      (fun b => b.company_role_id == req.paramsId)).map (fun b =>
    { company_role_id := newRoleId
      system_permission_id := b.system_permission_id
      can_grant := if req.include_can_grant.getD false then b.can_grant
                   else false
      granted_by := req.queryId })
  let db' : DB := { db with
    company_roles := db.company_roles ++ [newRole]
    role_permissions := db.role_permissions ++ copied
    nextRoleId := db.nextRoleId + 1 }
  pure (db', .createdClone newRoleId)

/-- `RBACController.cloneRole` with rollback on error. -/
def cloneRole (db : DB) (req : CloneRoleReq) : DB × Resp :=
  match cloneRoleE db req with
  | .ok r => r
  | .error e => (db, handleError e)

/-- Modelled from the SPEC's words (§4.2 step 2), for comparison with the
gates: clause (a) of the resolver — a RolePermission binding exists for
the user's assigned role with the role, the target module, and the target
permission all active. -/
def specRoleGrant (db : DB) (userId : Nat)
    (moduleKey permissionKey : String) : Bool :=
  db.users.any fun u =>
    u.id == userId &&
    (db.company_roles.any fun cr =>
      u.assigned_role_id == some cr.id && cr.is_active &&
      (db.role_permissions.any fun rp =>
        rp.company_role_id == cr.id &&
        (db.system_permissions.any fun sp =>
          sp.id == rp.system_permission_id &&
          sp.permission_key == permissionKey && sp.is_active &&
          (db.system_modules.any fun sm =>
            sm.id == sp.module_id && sm.module_key == moduleKey &&
            sm.is_active))))

/-- Modelled from the SPEC's words (§4.2 steps 2-3 and §8): the resolver
grants `(moduleKey, permissionKey)` iff (a) `specRoleGrant` holds, or
(b) a PermissionOverride row exists for the user and the permission with
`isGranted` true and `expiresAt` null or in the future. -/
def specResolverGrants (db : DB) (now userId : Nat)
    (moduleKey permissionKey : String) : Bool :=
  specRoleGrant db userId moduleKey permissionKey ||
  overrideQuery db now userId moduleKey permissionKey

/-! ## Helper lemmas -/

/-- The `requireAnyPermission` loop ends in `next()` or in the
payload-free denial; it can produce no other result. -/
theorem anyLoop_allow_or_denied (db : DB) (now uid : Nat) :
    ∀ pairs, anyPermissionLoop db now uid pairs = .allow ∨
      anyPermissionLoop db now uid pairs = .permissionDeniedAny
  | [] => Or.inr rfl
  | (mk, pk) :: rest => by
    simp only [anyPermissionLoop]
    split
    · exact Or.inl rfl
    · split
      · exact Or.inl rfl
      · exact anyLoop_allow_or_denied db now uid rest

/-- The `requireAllPermissions` loop ends in `next()` or in a denial
naming one of the requested pairs; it can produce no other result. -/
theorem allLoop_allow_or_missing (db : DB) (now uid : Nat) :
    ∀ pairs, allPermissionsLoop db now uid pairs = .allow ∨
      ∃ mk pk, allPermissionsLoop db now uid pairs = .missingPermission mk pk
  | [] => Or.inl rfl
  | (mk, pk) :: rest => by
    simp only [allPermissionsLoop]
    split
    · exact Or.inr ⟨mk, pk, rfl⟩
    · exact allLoop_allow_or_missing db now uid rest

/-! ## Fixtures and theorems for the claims -/

/-- An empty database (no companies, users, roles, bindings or
overrides). -/
def emptyDB : DB where
  companies := []
  users := []
  company_roles := []
  role_permissions := []
  system_permissions := []
  system_modules := []
  user_permission_overrides := []
  permission_audit_log := []
  nextRoleId := 1

/-- An owner principal as produced by `authenticateToken` for an `owners`
row (`userType: "owner"`; owners carry no `company_id`, modelled as 0). -/
def ownerPrincipal : ReqUser where
  id := 1
  userType := "owner"
  company_id := 0

/-- C1: for every database state (including one with no role, binding or
override at all), every `(moduleKey, permissionKey)` pair and every pair
list, a principal whose `userType` is `"owner"` passes `requirePermission`,
`requireAnyPermission`, `requireAllPermissions` and `requireOwner`
unconditionally — the owner branch returns before any role-table query
runs. -/
theorem owner_bypass_all_gates (db : DB) (now : Nat) (u : ReqUser)
    (moduleKey permissionKey : String) (pairs : List (String × String))
    (howner : u.userType = "owner") (hid : u.id ≠ 0) :
    requirePermission db now (some u) moduleKey permissionKey = .allow ∧
    requireAnyPermission db now (some u) pairs = .allow ∧
    requireAllPermissions db now (some u) pairs = .allow ∧
    requireOwner db (some u) = .allow := by
  simp [requirePermission, requireAnyPermission, requireAllPermissions,
    requireOwner, howner, hid]

/-- Witness for C1: the owner principal passes all four gates on the
empty database, where no role, binding or override exists. -/
theorem owner_bypass_all_gates_witness :
    requirePermission emptyDB 0 (some ownerPrincipal) "products" "create"
        = .allow ∧
    requireAnyPermission emptyDB 0 (some ownerPrincipal)
        [("products", "create")] = .allow ∧
    requireAllPermissions emptyDB 0 (some ownerPrincipal)
        [("products", "create")] = .allow ∧
    requireOwner emptyDB (some ownerPrincipal) = .allow :=
  owner_bypass_all_gates emptyDB 0 ownerPrincipal "products" "create"
    [("products", "create")] rfl (by decide)

/-- A company-1 role used by several fixtures. -/
def managerRole : RoleRow where
  id := 1
  company_id := 1
  role_key := "mgr"
  role_name := "Manager"
  description := none
  parent_role_id := none
  hierarchy_level := 0
  is_system_role := false
  is_active := true
  created_by := 1

/-- Fixture for C3: company 1 is FROZEN; user 1 is an active company-1
user whose active role has a binding to permission `(products, create)`
(module and permission both active). -/
def frozenDB : DB where
  companies := [{ id := 1, owner_id := 99, is_frozen := true }]
  users := [{ id := 1, company_id := 1, assigned_role_id := some 1,
              is_active := true }]
  company_roles := [managerRole]
  role_permissions := [{ company_role_id := 1, system_permission_id := 1,
                         can_grant := false, granted_by := 1 }]
  system_permissions := [{ id := 1, module_id := 1,
                           permission_key := "create", is_active := true }]
  system_modules := [{ id := 1, module_key := "products",
                       is_active := true }]
  user_permission_overrides := []
  permission_audit_log := []
  nextRoleId := 2

/-- The company-1 user of `frozenDB` as a request principal. -/
def frozenUser : ReqUser where
  id := 1
  userType := "user"
  company_id := 1

/-- Counterexample for C3: with the caller's company frozen,
`requirePermission` fails `COMPANY_FROZEN`, but `requireAnyPermission`
and `requireAllPermissions` on the very same pair pass — they never run
the company-frozen (or user-active) queries. -/
theorem requireAnyAll_ignore_frozen_company :
    companyFrozenQuery frozenDB 1 = true ∧
    requirePermission frozenDB 0 (some frozenUser) "products" "create"
        = .companyFrozen ∧
    requireAnyPermission frozenDB 0 (some frozenUser)
        [("products", "create")] = .allow ∧
    requireAllPermissions frozenDB 0 (some frozenUser)
        [("products", "create")] = .allow := by
  decide

/-- C3 (amended): `requireAnyPermission` and `requireAllPermissions`
check only authentication and the owner bypass before evaluating the
pairs; on no input whatsoever do they return the `COMPANY_FROZEN` or
`USER_INACTIVE` failures that `requirePermission` can return. -/
theorem requireAnyAll_no_precondition_checks (db : DB) (now : Nat)
    (reqUser : Option ReqUser) (pairs : List (String × String)) :
    requireAnyPermission db now reqUser pairs ≠ .companyFrozen ∧
    requireAnyPermission db now reqUser pairs ≠ .userInactive ∧
    requireAllPermissions db now reqUser pairs ≠ .companyFrozen ∧
    requireAllPermissions db now reqUser pairs ≠ .userInactive := by
  cases reqUser with
  | none => simp [requireAnyPermission, requireAllPermissions]
  | some u =>
    simp only [requireAnyPermission, requireAllPermissions]
    split
    · simp
    · split
      · simp
      · refine ⟨?_, ?_, ?_, ?_⟩
        · rcases anyLoop_allow_or_denied db now u.id pairs with h | h <;>
            simp [h]
        · rcases anyLoop_allow_or_denied db now u.id pairs with h | h <;>
            simp [h]
        · rcases allLoop_allow_or_missing db now u.id pairs with h | ⟨mk, pk, h⟩ <;>
            simp [h]
        · rcases allLoop_allow_or_missing db now u.id pairs with h | ⟨mk, pk, h⟩ <;>
            simp [h]

/-- If user ids are unique (the `users.id` primary key) and the
`requirePermission` user-active query succeeded, then every `users` row
carrying the caller's id is active. -/
theorem all_matching_users_active (db : DB) (uid : Nat)
    (hnodup : (db.users.map UserRow.id).Nodup)
    (hactive : userActiveQuery db uid = true) :
    ∀ u ∈ db.users, u.id = uid → u.is_active = true := by
  unfold userActiveQuery at hactive
  cases hf : db.users.find? (fun u => u.id == uid) with
  | none => rw [hf] at hactive; exact absurd hactive (by simp)
  | some u0 =>
    rw [hf] at hactive
    intro u hu huid
    have hm : u0 ∈ db.users := List.mem_of_find?_eq_some hf
    have hp :=
      @List.find?_some _ (fun v : UserRow => v.id == uid) u0 db.users hf
    have hid0 : u0.id = uid := by simpa using hp
    have : u = u0 :=
      List.inj_on_of_nodup_map hnodup hu hm (by rw [huid, hid0])
    rw [this]; exact hactive

/-- Under unique user ids and a passed user-active precondition, the
role-permission join of `requirePermission` coincides with the
spec-worded role clause (the only difference between the two is the
`u.is_active = 1` conjunct of the SQL). -/
theorem rolePermissionQueryFull_eq_specRoleGrant (db : DB) (uid : Nat)
    (moduleKey permissionKey : String)
    (hnodup : (db.users.map UserRow.id).Nodup)
    (hactive : userActiveQuery db uid = true) :
    rolePermissionQueryFull db uid moduleKey permissionKey =
      specRoleGrant db uid moduleKey permissionKey := by
  have hact := all_matching_users_active db uid hnodup hactive
  apply Bool.eq_iff_iff.mpr
  unfold rolePermissionQueryFull specRoleGrant
  simp only [List.any_eq_true, Bool.and_eq_true]
  constructor
  · rintro ⟨u, hu, ⟨⟨hid, -⟩, hrest⟩⟩
    exact ⟨u, hu, hid, hrest⟩
  · rintro ⟨u, hu, hid, hrest⟩
    exact ⟨u, hu, ⟨⟨hid, by simpa using hact u hu (by simpa using hid)⟩,
      hrest⟩⟩

/-- Fixture for C4: company 1 is NOT frozen; user 1 is active with an
active role bound to permission `(products, create)` whose permission row
is active — but the `products` MODULE row is inactive.  There is no
override. -/
def inactiveModuleDB : DB where
  companies := [{ id := 1, owner_id := 99, is_frozen := false }]
  users := [{ id := 1, company_id := 1, assigned_role_id := some 1,
              is_active := true }]
  company_roles := [managerRole]
  role_permissions := [{ company_role_id := 1, system_permission_id := 1,
                         can_grant := false, granted_by := 1 }]
  system_permissions := [{ id := 1, module_id := 1,
                           permission_key := "create", is_active := true }]
  system_modules := [{ id := 1, module_key := "products",
                       is_active := false }]
  user_permission_overrides := []
  permission_audit_log := []
  nextRoleId := 2

/-- The company-1 user of `inactiveModuleDB` as a request principal. -/
def moduleUser : ReqUser where
  id := 1
  userType := "user"
  company_id := 1

/-- Counterexample for C4: neither spec clause (a) nor (b) holds for
`(products, create)` — the module is inactive and no override exists —
and `requirePermission` indeed denies; yet `requireAnyPermission` on the
same single pair ALLOWS, because its role query omits the
`sm.is_active`/`sp.is_active` conditions.  So the claimed iff is false
for the `requireAnyPermission`/`requireAllPermissions` gates. -/
theorem requireAny_grants_inactive_module :
    specResolverGrants inactiveModuleDB 0 1 "products" "create" = false ∧
    requirePermission inactiveModuleDB 0 (some moduleUser) "products"
        "create" = .permissionDenied "products" "create" ∧
    requireAnyPermission inactiveModuleDB 0 (some moduleUser)
        [("products", "create")] = .allow ∧
    requireAllPermissions inactiveModuleDB 0 (some moduleUser)
        [("products", "create")] = .allow := by
  decide

/-- C4 (amended): for a non-owner principal that passed the company and
user preconditions (with unique user ids), `requirePermission` allows
exactly when the spec's resolver grants — role clause with role, module
and permission all active, tried first, else a non-expired granted
override — and otherwise denies naming the pair.  `requireAnyPermission`
(and `requireAllPermissions`, which uses the same queries) instead
evaluates the role clause WITHOUT the module- and permission-active
conditions, so for those gates the role disjunct is
`rolePermissionQueryNoActive`. -/
theorem requirePermission_matches_spec_resolver (db : DB) (now : Nat)
    (u : ReqUser) (moduleKey permissionKey : String)
    (hnotowner : u.userType ≠ "owner") (hid : u.id ≠ 0)
    (hnodup : (db.users.map UserRow.id).Nodup)
    (hnotfrozen : companyFrozenQuery db u.company_id = false)
    (hactive : userActiveQuery db u.id = true) :
    requirePermission db now (some u) moduleKey permissionKey =
      (if specResolverGrants db now u.id moduleKey permissionKey then
        .allow
       else .permissionDenied moduleKey permissionKey) ∧
    requireAnyPermission db now (some u) [(moduleKey, permissionKey)] =
      (if rolePermissionQueryNoActive db u.id moduleKey permissionKey ||
          overrideQuery db now u.id moduleKey permissionKey then .allow
       else .permissionDeniedAny) := by
  have hfull := rolePermissionQueryFull_eq_specRoleGrant db u.id moduleKey
    permissionKey hnodup hactive
  constructor
  · simp only [requirePermission, specResolverGrants, hfull,
      hnotfrozen, hactive]
    rw [if_neg (by simpa using hid), if_neg (by simpa using hnotowner)]
    rcases Bool.eq_false_or_eq_true
        (specRoleGrant db u.id moduleKey permissionKey) with h1 | h1 <;>
      rcases Bool.eq_false_or_eq_true
          (overrideQuery db now u.id moduleKey permissionKey) with
        h2 | h2 <;>
      simp [h1, h2]
  · simp only [requireAnyPermission, anyPermissionLoop]
    rw [if_neg (by simpa using hid), if_neg (by simpa using hnotowner)]
    rcases Bool.eq_false_or_eq_true
        (rolePermissionQueryNoActive db u.id moduleKey permissionKey) with
      h1 | h1 <;>
      rcases Bool.eq_false_or_eq_true
          (overrideQuery db now u.id moduleKey permissionKey) with
        h2 | h2 <;>
      simp [h1, h2]

/-- Witness for C4's amended theorem at the `inactiveModuleDB` fixture:
the preconditions hold concretely and the equations evaluate. -/
theorem requirePermission_matches_spec_resolver_witness :
    (requirePermission inactiveModuleDB 0 (some moduleUser) "products"
        "create" =
      (if specResolverGrants inactiveModuleDB 0 moduleUser.id "products"
          "create" then .allow
       else .permissionDenied "products" "create")) ∧
    (requireAnyPermission inactiveModuleDB 0 (some moduleUser)
        [("products", "create")] =
      (if rolePermissionQueryNoActive inactiveModuleDB moduleUser.id
          "products" "create" ||
          overrideQuery inactiveModuleDB 0 moduleUser.id "products"
            "create" then .allow
       else .permissionDeniedAny)) :=
  requirePermission_matches_spec_resolver inactiveModuleDB 0 moduleUser
    "products" "create" (by decide) (by decide) (by decide) (by decide)
    (by decide)

/-- Fixture for C2: company 1 with two active users.  User 10 holds the
`roles.manage_roles` permission through active role 5 (role, module and
permission all active); user 11 has no role at all.  Role 6 is an unused
non-system role. -/
def manageRolesDB : DB where
  companies := [{ id := 1, owner_id := 99, is_frozen := false }]
  users := [{ id := 10, company_id := 1, assigned_role_id := some 5,
              is_active := true },
            { id := 11, company_id := 1, assigned_role_id := none,
              is_active := true }]
  company_roles := [{ id := 5, company_id := 1, role_key := "admin",
                      role_name := "Admin", description := none,
                      parent_role_id := none, hierarchy_level := 0,
                      is_system_role := false, is_active := true,
                      created_by := 10 },
                    { id := 6, company_id := 1, role_key := "unused",
                      role_name := "Unused", description := none,
                      parent_role_id := none, hierarchy_level := 0,
                      is_system_role := false, is_active := true,
                      created_by := 10 }]
  role_permissions := [{ company_role_id := 5, system_permission_id := 7,
                         can_grant := true, granted_by := 10 }]
  system_permissions := [{ id := 7, module_id := 3,
                           permission_key := "manage_roles",
                           is_active := true }]
  system_modules := [{ id := 3, module_key := "roles", is_active := true }]
  user_permission_overrides := []
  permission_audit_log := []
  nextRoleId := 7

/-- A valid `createRole` request by user 10 (the `manage_roles`
holder). -/
def holderCreateReq : CreateRoleReq where
  user := some { id := 10, userType := "user", company_id := 1 }
  queryId := 10
  queryCompanyId := 1
  role_key := some "newrole"
  role_name := some "New Role"
  description := none
  parent_role_id := none
  hierarchy_level := none
  permission_ids := none
  is_system_role := none

/-- The same `createRole` request issued by user 11 (no role, no
permissions). -/
def nonHolderCreateReq : CreateRoleReq :=
  { holderCreateReq with
      user := some { id := 11, userType := "user", company_id := 1 }
      queryId := 11 }

/-- An `updateRole` request by user 10 against the non-system role 5. -/
def holderUpdateReq : UpdateRoleReq where
  user := some { id := 10, userType := "user", company_id := 1 }
  queryId := 10
  queryCompanyId := 1
  paramsId := 5
  patch := [.role_name "Renamed"]

/-- A `deleteRole` request by user 10 against the unused role 6 (so the
assigned-users guard does not fire first). -/
def holderDeleteReq : DeleteRoleReq where
  user := some { id := 10, userType := "user", company_id := 1 }
  queryId := 10
  queryCompanyId := 1
  paramsId := 6

/-- C2 (code bug): user 10 provably holds `roles.manage_roles`
(first conjunct, by the very query `checkUserPermission` contains) and
user 11 does not, yet `createRole` by EITHER of them — and `updateRole`
and `deleteRole` by the holder — all fail with the generic 500
`userType is not defined` response and leave the database unchanged:
`checkUserPermission` throws `ReferenceError` on its undeclared
`userType` before its query can run, so no non-owner ever reaches the
403 Forbidden branch, and the holder never proceeds. -/
theorem createRole_userType_reference_error :
    rolePermissionQueryFull manageRolesDB 10 "roles" "manage_roles"
        = true ∧
    rolePermissionQueryFull manageRolesDB 11 "roles" "manage_roles"
        = false ∧
    createRole manageRolesDB holderCreateReq =
      (manageRolesDB, .err 500 "userType is not defined") ∧
    createRole manageRolesDB nonHolderCreateReq =
      (manageRolesDB, .err 500 "userType is not defined") ∧
    updateRole manageRolesDB holderUpdateReq =
      (manageRolesDB, .err 500 "userType is not defined") ∧
    deleteRole manageRolesDB holderDeleteReq =
      (manageRolesDB, .err 500 "userType is not defined") := by
  decide

/-- Fixture for C5: two companies; user 10 belongs to company 1, user 2
belongs to company 2 and has a permanent granted override for
permission 1. -/
def crossCompanyDB : DB where
  companies := [{ id := 1, owner_id := 99, is_frozen := false },
                { id := 2, owner_id := 98, is_frozen := false }]
  users := [{ id := 10, company_id := 1, assigned_role_id := none,
              is_active := true },
            { id := 2, company_id := 2, assigned_role_id := none,
              is_active := true }]
  company_roles := []
  role_permissions := []
  system_permissions := [{ id := 1, module_id := 1,
                           permission_key := "view", is_active := true }]
  system_modules := [{ id := 1, module_key := "payments",
                       is_active := true }]
  user_permission_overrides := [{ user_id := 2, system_permission_id := 1,
                                  is_granted := true, expires_at := none,
                                  override_reason := none,
                                  overridden_by := 98 }]
  permission_audit_log := []
  nextRoleId := 1

/-- A `revokePermissionOverride` request issued from company 1 (caller
user 10, `company_id = 1`) against company 2's user 2. -/
def crossRevokeReq : RevokeOverrideReq where
  user := some { id := 10, userType := "user", company_id := 1 }
  queryId := 10
  queryCompanyId := 1
  paramsId := 2
  permission_id := some 1

/-- Counterexample for C5: the caller is scoped to company 1, the target
user 2 belongs to company 2, and `revokePermissionOverride` nevertheless
deletes user 2's override and reports one row revoked — its DELETE has
no `company_id` predicate, so a cross-company mutation succeeds. -/
theorem revokeOverride_cross_company :
    (crossCompanyDB.users.find? (fun v => v.id == 2)).map
        UserRow.company_id = some 2 ∧
    crossRevokeReq.queryCompanyId = 1 ∧
    (revokePermissionOverride crossCompanyDB crossRevokeReq).2 =
      .okRevoke 1 ∧
    (revokePermissionOverride crossCompanyDB
        crossRevokeReq).1.user_permission_overrides = [] ∧
    crossCompanyDB.user_permission_overrides ≠ [] := by
  decide

/-- C5 (amended): `grantPermissionOverride` does include the caller's
`companyId` in its target-user lookup — when no user row matches both
the target id and the caller's company it fails 404 and leaves the
database unchanged — but `revokePermissionOverride` deletes every
override matching `(userId, permissionId)` with NO company predicate,
reporting the matched count, so it can mutate overrides owned by another
company's user. -/
theorem override_company_scoping (db : DB) (greq : GrantOverrideReq)
    (rreq : RevokeOverrideReq)
    (hgid : greq.paramsId ≠ 0)
    (hgperm : greq.permission_id.getD 0 ≠ 0)
    (hnouser : db.users.find? (fun v =>
      v.id == greq.paramsId &&
      v.company_id == greq.queryCompanyId) = none)
    (hrid : rreq.paramsId ≠ 0)
    (hrperm : rreq.permission_id.getD 0 ≠ 0) :
    grantPermissionOverride db greq = (db, .err 404 "User not found") ∧
    revokePermissionOverride db rreq =
      ({ db with user_permission_overrides :=
          db.user_permission_overrides.filter (fun o =>
            !(o.user_id == rreq.paramsId &&
              o.system_permission_id == rreq.permission_id.getD 0)) },
       .okRevoke (db.user_permission_overrides.countP (fun o =>
          o.user_id == rreq.paramsId &&
          o.system_permission_id == rreq.permission_id.getD 0))) := by
  have h1 : (greq.paramsId == 0) = false := by simpa using hgid
  have h2 : (greq.permission_id.getD 0 == 0) = false := by
    simpa using hgperm
  have h3 : (rreq.paramsId == 0) = false := by simpa using hrid
  have h4 : (rreq.permission_id.getD 0 == 0) = false := by
    simpa using hrperm
  constructor
  · simp [grantPermissionOverride, grantPermissionOverrideE, h1, h2,
      hnouser, handleError, throw, throwThe, MonadExceptOf.throw,
      Bind.bind, Except.bind, pure, Except.pure, Functor.map, Except.map]
  · simp [revokePermissionOverride, revokePermissionOverrideE, h3, h4,
      handleError, throw, throwThe, MonadExceptOf.throw, Bind.bind,
      Except.bind, pure, Except.pure, Functor.map, Except.map]

/-- A `grantPermissionOverride` request issued from company 1 against
company 2's user 2 (used by the C5 witness). -/
def crossGrantReq : GrantOverrideReq where
  user := some { id := 10, userType := "user", company_id := 1 }
  queryId := 10
  queryCompanyId := 1
  paramsId := 2
  permission_id := some 1
  expires_at := none
  reason := none

/-- Witness for C5's amended theorem on the `crossCompanyDB` fixture:
the cross-company grant fails 404, while the cross-company revoke
deletes the row. -/
theorem override_company_scoping_witness :
    grantPermissionOverride crossCompanyDB crossGrantReq =
      (crossCompanyDB, .err 404 "User not found") ∧
    revokePermissionOverride crossCompanyDB crossRevokeReq =
      ({ crossCompanyDB with user_permission_overrides :=
          crossCompanyDB.user_permission_overrides.filter (fun o =>
            !(o.user_id == crossRevokeReq.paramsId &&
              o.system_permission_id ==
                crossRevokeReq.permission_id.getD 0)) },
       .okRevoke (crossCompanyDB.user_permission_overrides.countP
          (fun o => o.user_id == crossRevokeReq.paramsId &&
            o.system_permission_id ==
              crossRevokeReq.permission_id.getD 0))) :=
  override_company_scoping crossCompanyDB crossGrantReq crossRevokeReq
    (by decide) (by decide) (by decide) (by decide) (by decide)

/-- C6: whenever the role found for `(paramsId, companyId)` has
`is_system_role` set, `updateRole` and `deleteRole` fail 403 with the
system-role message and leave the database untouched — for EVERY acting
principal (including `userType = "owner"`) and every permission state,
because the system-role test runs before the management-permission
check. -/
theorem system_role_immutable (db : DB) (ur : UpdateRoleReq)
    (dr : DeleteRoleReq) (r1 r2 : RoleRow)
    (hu0 : ur.paramsId ≠ 0)
    (hufind : db.company_roles.find? (fun r =>
      r.id == ur.paramsId && r.company_id == ur.queryCompanyId) = some r1)
    (husys : r1.is_system_role = true)
    (hd0 : dr.paramsId ≠ 0)
    (hdfind : db.company_roles.find? (fun r =>
      r.id == dr.paramsId && r.company_id == dr.queryCompanyId) = some r2)
    (hdsys : r2.is_system_role = true) :
    updateRole db ur = (db, .err 403 "Cannot modify system roles") ∧
    deleteRole db dr = (db, .err 403 "Cannot delete system roles") := by
  have h1 : (ur.paramsId == 0) = false := by simpa using hu0
  have h2 : (dr.paramsId == 0) = false := by simpa using hd0
  constructor
  · simp [updateRole, updateRoleE, h1, hufind, husys, handleError, throw,
      throwThe, MonadExceptOf.throw, Bind.bind, Except.bind, pure,
      Except.pure, Functor.map, Except.map]
  · simp [deleteRole, deleteRoleE, h2, hdfind, hdsys, handleError, throw,
      throwThe, MonadExceptOf.throw, Bind.bind, Except.bind, pure,
      Except.pure, Functor.map, Except.map]

/-- Company 1's system role used by the C6 fixture. -/
def sysRole : RoleRow where
  id := 3
  company_id := 1
  role_key := "sysadmin"
  role_name := "System Admin"
  description := none
  parent_role_id := none
  hierarchy_level := 9
  is_system_role := true
  is_active := true
  created_by := 99

/-- Fixture for C6: company 1's role 3 is a SYSTEM role. -/
def systemRoleDB : DB where
  companies := [{ id := 1, owner_id := 99, is_frozen := false }]
  users := []
  company_roles := [sysRole]
  role_permissions := []
  system_permissions := []
  system_modules := []
  user_permission_overrides := []
  permission_audit_log := []
  nextRoleId := 4

/-- An OWNER's `updateRole` request against the system role 3. -/
def ownerUpdateSystemReq : UpdateRoleReq where
  user := some { id := 1, userType := "owner", company_id := 0 }
  queryId := 1
  queryCompanyId := 1
  paramsId := 3
  patch := [.role_name "Renamed"]

/-- An OWNER's `deleteRole` request against the system role 3. -/
def ownerDeleteSystemReq : DeleteRoleReq where
  user := some { id := 1, userType := "owner", company_id := 0 }
  queryId := 1
  queryCompanyId := 1
  paramsId := 3

/-- Witness for C6: even an owner principal gets the 403 system-role
rejection from both `updateRole` and `deleteRole`. -/
theorem system_role_immutable_witness :
    updateRole systemRoleDB ownerUpdateSystemReq =
      (systemRoleDB, .err 403 "Cannot modify system roles") ∧
    deleteRole systemRoleDB ownerDeleteSystemReq =
      (systemRoleDB, .err 403 "Cannot delete system roles") :=
  system_role_immutable systemRoleDB ownerUpdateSystemReq
    ownerDeleteSystemReq sysRole sysRole (by decide) (by decide)
    (by decide) (by decide) (by decide) (by decide)

/-- C7: when the role exists in the caller's company, is not a system
role, and `n > 0` users (company-unscoped, exactly as the source counts
them) hold `assigned_role_id = roleId`, `deleteRole` fails with the 400
role-in-use message reporting `n`, and the returned database is the
input database — the role row and all of its bindings are unchanged,
because the guard throws before any DELETE and the catch block rolls the
transaction back. -/
theorem deleteRole_role_in_use_guard (db : DB) (req : DeleteRoleReq)
    (r : RoleRow) (n : Nat)
    (h0 : req.paramsId ≠ 0)
    (hfind : db.company_roles.find? (fun x =>
      x.id == req.paramsId && x.company_id == req.queryCompanyId) = some r)
    (hsys : r.is_system_role = false)
    (hcount : db.users.countP
      (fun u => u.assigned_role_id == some req.paramsId) = n)
    (hn : 0 < n) :
    deleteRole db req =
      (db, .err 400 ("Cannot delete role. " ++ toString n ++
        " user(s) are assigned to this role. Please reassign them first."))
    := by
  have h1 : (req.paramsId == 0) = false := by simpa using h0
  simp [deleteRole, deleteRoleE, h1, hfind, hsys, hcount, hn, handleError,
    throw, throwThe, MonadExceptOf.throw, Bind.bind, Except.bind, pure,
    Except.pure, Functor.map, Except.map]

/-- Fixture for C7: role 1 of company 1 is held by user 7 and carries a
binding to permission 2. -/
def roleInUseDB : DB where
  companies := [{ id := 1, owner_id := 99, is_frozen := false }]
  users := [{ id := 7, company_id := 1, assigned_role_id := some 1,
              is_active := true }]
  company_roles := [managerRole]
  role_permissions := [{ company_role_id := 1, system_permission_id := 2,
                         can_grant := false, granted_by := 1 }]
  system_permissions := [{ id := 2, module_id := 1,
                           permission_key := "view", is_active := true }]
  system_modules := [{ id := 1, module_key := "orders",
                       is_active := true }]
  user_permission_overrides := []
  permission_audit_log := []
  nextRoleId := 2

/-- An owner's `deleteRole` request against the in-use role 1. -/
def inUseDeleteReq : DeleteRoleReq where
  user := some { id := 1, userType := "owner", company_id := 0 }
  queryId := 1
  queryCompanyId := 1
  paramsId := 1

/-- Witness for C7: deleting the role held by one user fails with the
count-bearing message and returns the database unchanged (role row and
binding both still present). -/
theorem deleteRole_role_in_use_guard_witness :
    deleteRole roleInUseDB inUseDeleteReq =
      (roleInUseDB, .err 400 ("Cannot delete role. " ++ toString 1 ++
        " user(s) are assigned to this role. Please reassign them first."))
    :=
  deleteRole_role_in_use_guard roleInUseDB inUseDeleteReq managerRole 1
    (by decide) (by decide) (by decide) (by decide) (by decide)

/-- When the acting principal is an owner, the `createRole` permission
loop inserts one binding per requested id (the `canGrant` disjunction
short-circuits before `checkUserCanGrantPermission` can throw). -/
theorem createRoleGrantLoop_owner (db : DB) (req : CreateRoleReq)
    (nid : Nat) (howner : isOwnerReq req.user = true) :
    ∀ ids : List Nat, createRoleGrantLoop db req nid ids =
      .ok (ids.map (fun pid =>
        { company_role_id := nid, system_permission_id := pid,
          can_grant := false, granted_by := req.queryId }))
  | [] => rfl
  | pid :: rest => by
    simp [createRoleGrantLoop, howner,
      createRoleGrantLoop_owner db req nid howner rest,
      Bind.bind, Except.bind, pure, Except.pure]

/-- A non-owner `createRole` request never succeeds: every path either
throws a validation error or reaches `checkUserPermission`, whose
`ReferenceError` propagates. -/
theorem createRoleE_error_of_not_owner (db : DB) (req : CreateRoleReq)
    (h : isOwnerReq req.user = false) :
    ∀ pr, createRoleE db req ≠ .ok pr := by
  intro pr hE
  simp only [createRoleE, h, checkUserPermission, throw, throwThe,
    MonadExceptOf.throw, Bind.bind, Except.bind, pure, Except.pure,
    Bool.not_false, if_true, Bool.false_eq_true] at hE
  split at hE
  · exact absurd hE (by simp)
  · split at hE
    · exact absurd hE (by simp)
    · exact absurd hE (by simp)

/-- C8: for every `createRole` call that returns the 201 created
response, the `ROLE_CREATED` audit entry just appended records a
permission count equal to the number of `role_permissions` rows the new
role actually has.  (In the source the audit serializes the REQUESTED
id count, but a successful call is necessarily an owner's — non-owners
die on the `userType` `ReferenceError` — and an owner's loop grants
every requested id, so the two counts coincide on every reachable
success.)  The freshness hypothesis says no pre-existing binding uses
the auto-increment id the new role receives. -/
theorem createRole_audit_count (db : DB) (req : CreateRoleReq)
    (hfresh : ∀ b ∈ db.role_permissions,
      b.company_role_id ≠ db.nextRoleId) :
    ∀ db' rid cnt, createRole db req = (db', .createdRole rid cnt) →
      ∃ e, db'.permission_audit_log.getLast? = some e ∧
        e.action_type = "ROLE_CREATED" ∧
        e.permission_count =
          some (db'.role_permissions.countP
            (fun b => b.company_role_id == rid)) := by
  intro db' rid cnt heq
  unfold createRole at heq
  cases hE : createRoleE db req with
  | error e =>
    rw [hE] at heq
    cases e <;> simp [handleError] at heq
  | ok pr =>
    rw [hE] at heq
    by_cases howner : isOwnerReq req.user = true
    · rw [createRoleE] at hE
      simp only [howner, Bool.not_true, Bool.false_eq_true, if_false,
        createRoleGrantLoop_owner db req db.nextRoleId howner,
        Bind.bind, Except.bind, pure, Except.pure, throw, throwThe,
        MonadExceptOf.throw] at hE
      split at hE
      · exact absurd hE (by simp)
      · split at hE
        · exact absurd hE (by simp)
        · rw [Except.ok.injEq] at hE
          rw [← hE] at heq
          rw [Prod.mk.injEq] at heq
          obtain ⟨hdb, hresp⟩ := heq
          rw [Resp.createdRole.injEq] at hresp
          obtain ⟨hrid, -⟩ := hresp
          subst hdb hrid
          refine ⟨_, List.getLast?_concat _, rfl, ?_⟩
          simp only [List.countP_append, List.countP_map]
          have hz : db.role_permissions.countP
              (fun b => b.company_role_id == db.nextRoleId) = 0 :=
            List.countP_eq_zero.mpr (fun b hb => by
              simpa using hfresh b hb)
          rw [hz]
          cases hids : req.permission_ids <;>
            simp [Option.getD, Function.comp_def, beq_self_eq_true,
              List.countP_true]
    · exact absurd hE (createRoleE_error_of_not_owner db req
        (by simpa using howner) pr)

/-- An owner's `createRole` request with two requested permission ids
(used by the C8 witness against the empty database). -/
def ownerCreateReq : CreateRoleReq where
  user := some { id := 1, userType := "owner", company_id := 0 }
  queryId := 1
  queryCompanyId := 1
  role_key := some "ops"
  role_name := some "Ops"
  description := none
  parent_role_id := none
  hierarchy_level := none
  permission_ids := some [7, 8]
  is_system_role := none

/-- Witness for C8: the owner's create with two permission ids succeeds
and the audit entry records count 2, the number of bindings the new role
(id 1) actually received. -/
theorem createRole_audit_count_witness :
    ∃ e, ((createRole emptyDB
        ownerCreateReq).1).permission_audit_log.getLast? = some e ∧
      e.action_type = "ROLE_CREATED" ∧
      e.permission_count = some (((createRole emptyDB
          ownerCreateReq).1).role_permissions.countP
        (fun b => b.company_role_id == 1)) :=
  createRole_audit_count emptyDB ownerCreateReq (by decide)
    (createRole emptyDB ownerCreateReq).1 1 2 (by decide)

/-- Fixture for C9: company 1 has only the (empty) role 1; there are no
bindings yet. -/
def dupAssignDB : DB where
  companies := []
  users := []
  company_roles := [managerRole]
  role_permissions := []
  system_permissions := []
  system_modules := []
  user_permission_overrides := []
  permission_audit_log := []
  nextRoleId := 2

/-- An owner's `assignPermissionsToRole` request assigning permission 1
to role 1. -/
def dupAssignReq : AssignPermsReq where
  user := some { id := 1, userType := "owner", company_id := 0 }
  queryId := 1
  queryCompanyId := 1
  paramsId := 1
  permission_ids := some [1]
  can_grant := none

/-- Counterexample for C9: calling `assignPermissions(role, [p1])` twice
leaves exactly one binding row, but the second call reports
`assigned: 0, skipped: 0` — not `skipped: 1` as claimed: the source
increments `skippedCount` only for UNGRANTABLE ids and counts an
already-bound id in neither counter. -/
theorem assignPermissions_second_call_reports_no_skip :
    (assignPermissionsToRole dupAssignDB dupAssignReq).2 =
      .okAssign 1 0 1 ∧
    (assignPermissionsToRole
      (assignPermissionsToRole dupAssignDB dupAssignReq).1
      dupAssignReq).2 = .okAssign 0 0 1 ∧
    (.okAssign 0 0 1 : Resp) ≠ .okAssign 0 1 1 ∧
    (assignPermissionsToRole
        (assignPermissionsToRole dupAssignDB dupAssignReq).1
        dupAssignReq).1.role_permissions.countP
      (fun b => b.company_role_id == 1 &&
        b.system_permission_id == 1) = 1 := by
  decide

/-- C9 (amended): for an owner-grantable permission `p1` not yet bound
to the existing role, two consecutive `assignPermissions(role, [p1])`
calls produce exactly one binding row for `(role, p1)`; the first call
reports `assigned: 1, skipped: 0` and the second reports
`assigned: 0, skipped: 0` (already-existing bindings are not inserted
again, but they are counted in neither `assigned` nor `skipped`). -/
theorem assignPermissions_idempotent (db : DB) (req : AssignPermsReq)
    (p1 : Nat)
    (howner : isOwnerReq req.user = true)
    (h0 : req.paramsId ≠ 0)
    (hids : req.permission_ids = some [p1])
    (hrole : ∃ r, db.company_roles.find? (fun x =>
      x.id == req.paramsId && x.company_id == req.queryCompanyId) = some r)
    (hnob : db.role_permissions.any (fun b =>
      b.company_role_id == req.paramsId &&
      b.system_permission_id == p1) = false) :
    (assignPermissionsToRole db req).2 = .okAssign 1 0 1 ∧
    (assignPermissionsToRole
      (assignPermissionsToRole db req).1 req).2 = .okAssign 0 0 1 ∧
    (assignPermissionsToRole
        (assignPermissionsToRole db req).1 req).1.role_permissions.countP
      (fun b => b.company_role_id == req.paramsId &&
        b.system_permission_id == p1) = 1 := by
  obtain ⟨r, hrole⟩ := hrole
  have h1 : (req.paramsId == 0) = false := by simpa using h0
  have hcount0 : db.role_permissions.countP (fun b =>
      b.company_role_id == req.paramsId &&
      b.system_permission_id == p1) = 0 :=
    List.countP_eq_zero.mpr (by
      intro b hb
      have := List.any_eq_false.mp hnob b hb
      simpa using this)
  refine ⟨?_, ?_, ?_⟩ <;>
    simp [assignPermissionsToRole, assignPermissionsToRoleE,
      assignPermsLoop, h1, hids, hrole, howner, hnob, hcount0,
      List.any_append, List.countP_append, handleError, throw, throwThe,
      MonadExceptOf.throw, Bind.bind, Except.bind, pure, Except.pure,
      Functor.map, Except.map]

/-- Witness for C9's amended theorem on the `dupAssignDB` fixture. -/
theorem assignPermissions_idempotent_witness :
    (assignPermissionsToRole dupAssignDB dupAssignReq).2 =
      .okAssign 1 0 1 ∧
    (assignPermissionsToRole
      (assignPermissionsToRole dupAssignDB dupAssignReq).1
      dupAssignReq).2 = .okAssign 0 0 1 ∧
    (assignPermissionsToRole
        (assignPermissionsToRole dupAssignDB dupAssignReq).1
        dupAssignReq).1.role_permissions.countP
      (fun b => b.company_role_id == dupAssignReq.paramsId &&
        b.system_permission_id == 1) = 1 :=
  assignPermissions_idempotent dupAssignDB dupAssignReq 1 (by decide)
    (by decide) (by decide) ⟨managerRole, by decide⟩ (by decide)

/-- C10: `cloneRole` performs no authorization check beyond the routes'
bearer authentication: for ANY attached principal `u` — owner or company
user, with no fact about roles or permissions assumed — a clone request
with a valid id, a fresh key and an existing source role succeeds,
copies every binding of the source role onto the new role id, and
appends NOTHING to the audit log. -/
theorem cloneRole_no_authorization (db : DB) (req : CloneRoleReq)
    (u : ReqUser) (src : RoleRow)
    (hauth : req.user = some u)
    (h0 : req.paramsId ≠ 0)
    (hkey : req.new_role_key.getD "" ≠ "")
    (hname : req.new_role_name.getD "" ≠ "")
    (hsrc : db.company_roles.find? (fun r =>
      r.id == req.paramsId &&
      r.company_id == req.queryCompanyId) = some src)
    (hdup : db.company_roles.any (fun r =>
      r.role_key == jsTrim (req.new_role_key.getD "") &&
      r.company_id == req.queryCompanyId) = false) :
    (cloneRole db req).2 = .createdClone db.nextRoleId ∧
    (cloneRole db req).1.permission_audit_log =
      db.permission_audit_log ∧
    (cloneRole db req).1.role_permissions =
      db.role_permissions ++
        (db.role_permissions.filter
          (fun b => b.company_role_id == req.paramsId)).map (fun b =>
          { company_role_id := db.nextRoleId
            system_permission_id := b.system_permission_id
            can_grant := if req.include_can_grant.getD false then
                b.can_grant else false
            granted_by := req.queryId }) ∧
    (cloneRole db req).1.company_roles =
      db.company_roles ++
        [{ id := db.nextRoleId
           company_id := req.queryCompanyId
           role_key := jsToLower (jsTrim (req.new_role_key.getD ""))
           role_name := jsTrim (req.new_role_name.getD "")
           description := some ("Cloned from " ++ src.role_name)
           parent_role_id := none
           hierarchy_level := src.hierarchy_level
           is_system_role := false
           is_active := true
           created_by := req.queryId }] := by
  have h1 : (req.paramsId == 0) = false := by simpa using h0
  have h2 : (req.new_role_key.getD "" == "") = false := by simpa using hkey
  have h3 : (req.new_role_name.getD "" == "") = false := by
    simpa using hname
  refine ⟨?_, ?_, ?_, ?_⟩ <;>
    simp [cloneRole, cloneRoleE, h1, h2, h3, hsrc, hdup, handleError,
      throw, throwThe, MonadExceptOf.throw, Bind.bind, Except.bind, pure,
      Except.pure, Functor.map, Except.map]

/-- Fixture for C10: company 1 with role 1 holding one binding
(`can_grant = true`), and user 42 — active, with NO assigned role, no
bindings and no overrides. -/
def cloneDB : DB where
  companies := [{ id := 1, owner_id := 99, is_frozen := false }]
  users := [{ id := 42, company_id := 1, assigned_role_id := none,
              is_active := true }]
  company_roles := [managerRole]
  role_permissions := [{ company_role_id := 1, system_permission_id := 2,
                         can_grant := true, granted_by := 1 }]
  system_permissions := [{ id := 2, module_id := 1,
                           permission_key := "view", is_active := true }]
  system_modules := [{ id := 1, module_key := "orders",
                       is_active := true }]
  user_permission_overrides := []
  permission_audit_log := []
  nextRoleId := 2

/-- The permissionless user 42's clone request against role 1. -/
def cloneReq : CloneRoleReq where
  user := some { id := 42, userType := "user", company_id := 1 }
  queryId := 42
  queryCompanyId := 1
  paramsId := 1
  new_role_key := some "copy"
  new_role_name := some "Copy"
  include_can_grant := none

/-- Witness for C10: user 42, who holds no role and no permission at
all, clones role 1 — the clone succeeds, the binding is copied, and no
audit entry is appended. -/
theorem cloneRole_no_authorization_witness :
    (cloneRole cloneDB cloneReq).2 = .createdClone cloneDB.nextRoleId ∧
    (cloneRole cloneDB cloneReq).1.permission_audit_log =
      cloneDB.permission_audit_log ∧
    (cloneRole cloneDB cloneReq).1.role_permissions =
      cloneDB.role_permissions ++
        (cloneDB.role_permissions.filter
          (fun b => b.company_role_id == cloneReq.paramsId)).map (fun b =>
          { company_role_id := cloneDB.nextRoleId
            system_permission_id := b.system_permission_id
            can_grant := if cloneReq.include_can_grant.getD false then
                b.can_grant else false
            granted_by := cloneReq.queryId }) ∧
    (cloneRole cloneDB cloneReq).1.company_roles =
      cloneDB.company_roles ++
        [{ id := cloneDB.nextRoleId
           company_id := cloneReq.queryCompanyId
           role_key := jsToLower (jsTrim (cloneReq.new_role_key.getD ""))
           role_name := jsTrim (cloneReq.new_role_name.getD "")
           description := some ("Cloned from " ++ managerRole.role_name)
           parent_role_id := none
           hierarchy_level := managerRole.hierarchy_level
           is_system_role := false
           is_active := true
           created_by := cloneReq.queryId }] :=
  cloneRole_no_authorization cloneDB cloneReq
    { id := 42, userType := "user", company_id := 1 } managerRole rfl
    (by decide) (by decide) (by decide) (by decide) (by decide)

end CMS
